import Mathlib

/-!
Verification model of the VCBot ingestion/decision pipeline.

This file gives a shallow embedding of the core modules of the repository —
`vcbot/bethesda.py` (content model and hash), `vcbot/app.py` (eligibility,
change detection, pagination walker) and `vcbot/db.py` (the SQLite ledger) —
and proves or refutes the specification claims about them.

Modelling conventions, used throughout:

* Timestamp strings: the source stores instants as ISO-8601 strings produced
  by `utils.iso_from_epoch` and compares them after `utils.parse_iso`
  (`datetime.fromisoformat`).  The model renders an instant as its decimal
  epoch literal, so `parse_iso` parses a non-empty digit string to a `Nat`
  and rejects anything else; the order on parsed instants is the numeric
  order, exactly as ISO-8601 strings of a uniform format compare
  chronologically.  Empty or malformed strings fail to parse, as in the
  source.
* Opaque structured payloads (stats, release notes, image descriptors, ...)
  are modelled by their canonical JSON serialization, a `String`: the source
  persists and hashes exactly `json.dumps(payload, sort_keys=True)`, which is
  injective on these values, so the serialized form carries the same
  information.
* The content hash: `compute_mod_hash` builds a fixed-key payload dictionary
  and returns its SHA-256.  The model returns the payload itself (the
  `HashPayload` structure); SHA-256 over the sorted-key dump is treated as an
  injective function of that payload, so digest equality is payload equality.
-/

namespace VCBot

/-- Numeric value of a decimal digit character; `none` otherwise.  (The
kernel reduces this character-level arithmetic, unlike the `String`
primitives it replaces.) -/
def digit_val (c : Char) : Option Nat :=
  if c = '0' then some 0 else if c = '1' then some 1 else if c = '2' then some 2
  else if c = '3' then some 3 else if c = '4' then some 4 else if c = '5' then some 5
  else if c = '6' then some 6 else if c = '7' then some 7 else if c = '8' then some 8
  else if c = '9' then some 9 else none

/-- Parse a non-empty all-digit character list as a natural number. -/
def digits_to_nat : List Char → Option Nat → Option Nat
  | [], acc => acc
  | c :: cs, acc =>
    match digit_val c, acc with
    | some d, some a => digits_to_nat cs (some (a * 10 + d))
    | some d, none => digits_to_nat cs (some d)
    | none, _ => none

/-- Strip `pat` from the front of a character list, or fail. -/
def drop_pat : List Char → List Char → Option (List Char)
  | [], cs => some cs
  | _ :: _, [] => none
  | p :: ps, c :: cs => if p = c then drop_pat ps cs else none

theorem drop_pat_length : ∀ (ps cs rest : List Char), drop_pat ps cs = some rest →
    rest.length ≤ cs.length := by
  intro ps
  induction ps with
  | nil => intro cs rest h; cases h; exact Nat.le_refl _
  | cons p ps ih =>
    intro cs rest h
    cases cs with
    | nil => cases h
    | cons c cs =>
      by_cases hpc : p = c
      · simp [drop_pat, hpc] at h
        exact Nat.le_trans (ih cs rest h) (Nat.le_succ _)
      · simp [drop_pat, hpc] at h

/-- Replace every occurrence of a non-empty pattern, models `str.replace`. -/
def replace_chars (pat rep : List Char) : List Char → List Char
  | [] => []
  | c :: cs =>
    match pat with
    | [] => c :: cs
    | p :: ps =>
      if hpc : p = c then
        match hd : drop_pat ps cs with
        | some rest => rep ++ replace_chars pat rep rest
        | none => c :: replace_chars pat rep cs
      else c :: replace_chars pat rep cs
termination_by l => l.length
decreasing_by
  · exact Nat.lt_succ_of_le (drop_pat_length _ _ _ hd)
  · exact Nat.lt_succ_of_le (Nat.le_refl _)
  · exact Nat.lt_succ_of_le (Nat.le_refl _)

/-- Does the character list start with the given pattern? -/
def starts_with_chars (pat cs : List Char) : Bool :=
  (drop_pat pat cs).isSome

/-- Models `str.lower` on ASCII letters (the only ones the compared account
names contain). -/
def lower_char (c : Char) : Char :=
  if 'A' ≤ c ∧ c ≤ 'Z' then Char.ofNat (c.toNat + 32) else c

/-- Models `str.lower`. -/
def lower_string (s : String) : String :=
  String.mk (s.data.map lower_char)

/-- Lexicographic comparison of character lists by code point — Python's
`<` on `str`. -/
def chars_lt : List Char → List Char → Bool
  | [], [] => false
  | [], _ :: _ => true
  | _ :: _, [] => false
  | a :: as, b :: bs =>
    if a.toNat < b.toNat then true
    else if b.toNat < a.toNat then false
    else chars_lt as bs

/-- Python `a < b` on strings. -/
def str_lt (a b : String) : Bool :=
  chars_lt a.data b.data

/-- Python truthiness of an optional string: `None` and `""` are falsy. -/
def py_str_truthy : Option String → Bool
  | none => false
  | some s => s ≠ ""

/-- Python `a or b` on optional strings: keep `a` unless it is falsy. -/
def py_or_str (a b : Option String) : Option String :=
  match a with
  | some s => if s = "" then b else some s
  | none => b

/-- Models `utils.parse_iso`: `None`/empty input gives `None`; a valid
instant literal parses to the instant; anything else fails to parse.  In the
model an instant literal is a decimal digit string and the instant is its
numeric value (see the header comment on timestamp strings). -/
def parse_iso (value : Option String) : Option Nat :=
  match value with
  | none => none
  | some s => digits_to_nat s.data none

/-- Models `utils.iso_from_epoch`: `None` gives `None`, an in-range epoch is
rendered as an instant literal, out-of-range values (which make
`datetime.fromtimestamp` raise) give `None`.  In the model the rendered
literal is the decimal epoch itself. -/
def iso_from_epoch (value : Option Int) : Option String :=
  match value with
  | none => none
  | some v => if v < 0 then none else some (toString v.toNat)

/-- A JSON-ish value that can sit under the `"amount"` key of a price
dictionary, as far as `app._has_paid_price` can observe it: the key may be
missing, explicitly `null`, a number, a bool, a string, or some other
structure (modelled by its serialization). -/
inductive AmountVal where
  | absent
  | null
  | num (q : Rat)
  | boolean (b : Bool)
  | strv (s : String)
  | other (blob : String)
deriving DecidableEq, Repr

/-- Models Python `float(s)` on the plain decimal literals the catalog uses
(`"9.99"`, `"-3"`, ...); other strings raise `ValueError`, modelled as
`none`. -/
def parse_float (s : String) : Option Rat :=
  let core : List Char → Option Rat := fun t =>
    let intpart := t.takeWhile (fun c => c ≠ '.')
    match t.dropWhile (fun c => c ≠ '.') with
    | [] => (digits_to_nat intpart none).map (fun n => (n : Rat))
    | _ :: frac =>
      if frac.contains '.' then none
      else
        match digits_to_nat intpart none, digits_to_nat frac none with
        | some n, some f => some ((n : Rat) + (f : Rat) / ((10 : Rat) ^ frac.length))
        | _, _ => none
  match s.data with
  | '-' :: t => (core t).map (fun q => -q)
  | t => core t

/-- Models Python `float(amount)`: numbers convert, bools convert to 0/1,
strings parse or raise, `None` and structured values raise
(`TypeError`/`ValueError`, modelled as `none`). -/
def float_of_amount : AmountVal → Option Rat
  | .num q => some q
  | .boolean b => some (if b then 1 else 0)
  | .strv s => parse_float s
  | .absent => none
  | .null => none
  | .other _ => none

/-- One price dictionary from `catalog_info[*].prices`: the `"amount"` entry
(the only key the code inspects) plus the serialization of the remaining
entries. -/
structure Price where
  amount : AmountVal
  rest : String
deriving DecidableEq, Repr

/-- One entry of the raw `catalog_info` list: its `prices` list plus the
serialization of its other keys. -/
structure CatalogEntry where
  prices : List Price
  rest : String
deriving DecidableEq, Repr

/-- An image descriptor dictionary with string values, in insertion order
(the only values `bethesda._extract_image_url` does not skip). -/
def ImageBlob := List (String × String)
deriving DecidableEq, Repr

/-- The `Mod` dataclass of `vcbot/bethesda.py`, field for field.  Structured
payloads the decision logic never inspects are carried as their canonical
serializations (see the header comment). -/
structure Mod where
  mod_id : String
  title : String
  overview : Option String
  description : Option String
  product : String
  product_title : Option String
  content_type : Option String
  hardware_platforms : List String
  categories : List String
  author_displayname : Option String
  author_buid : Option String
  author_verified : Bool
  author_official : Bool
  published_buid : Option String
  updated_buid : Option String
  created_at : Option String
  published_at : Option String
  first_published_at : Option String
  updated_at : Option String
  status : Option String
  moderation_state : Option String
  error_info : Option String
  deleted : Bool
  published : Bool
  moderated : Bool
  beta : Bool
  maintenance : Bool
  restricted : Bool
  use_high_report_threshold : Bool
  marketplace : Bool
  review_revision : Bool
  author_price : String
  required_dlc : String
  required_mods : List String
  achievement_friendly : Bool
  default_locale : Option String
  supported_locales : List String
  release_notes : String
  stats : String
  custom_data : String
  catalog_info : List CatalogEntry
  prices : List Price
  preview_image_url : Option String
  cover_image_url : Option String
  preview_image : ImageBlob
  cover_image : ImageBlob
  screenshot_images : String
  videos : String
  details_url : Option String
deriving DecidableEq, Repr

/-- The payload dictionary built by `bethesda.compute_mod_hash`, key for key.
The digest of a `Mod` is modelled as this payload (SHA-256 of the sorted-key
JSON dump is treated as injective, see the header comment), so two mods have
equal digests exactly when they agree on every payload field. -/
structure HashPayload where
  title : String
  overview : Option String
  description : Option String
  categories : List String
  hardware_platforms : List String
  author_displayname : Option String
  author_verified : Bool
  author_official : Bool
  published_buid : Option String
  updated_buid : Option String
  updated_at : Option String
  published_at : Option String
  content_type : Option String
  details_url : Option String
  preview_image_url : Option String
  cover_image_url : Option String
  preview_image : ImageBlob
  cover_image : ImageBlob
  screenshot_images : String
  videos : String
  status : Option String
  moderation_state : Option String
  error_info : Option String
  published : Bool
  beta : Bool
  maintenance : Bool
  restricted : Bool
  use_high_report_threshold : Bool
  marketplace : Bool
  review_revision : Bool
  author_price : String
  required_dlc : String
  required_mods : List String
  achievement_friendly : Bool
  default_locale : Option String
  supported_locales : List String
  release_notes : String
  stats : String
  custom_data : String
  catalog_info : List CatalogEntry
  prices : List Price
deriving DecidableEq, Repr

/-- `bethesda.compute_mod_hash`: the curated payload of the content hash. -/
def compute_mod_hash (m : Mod) : HashPayload :=
  { title := m.title
    overview := m.overview
    description := m.description
    categories := m.categories
    hardware_platforms := m.hardware_platforms
    author_displayname := m.author_displayname
    author_verified := m.author_verified
    author_official := m.author_official
    published_buid := m.published_buid
    updated_buid := m.updated_buid
    updated_at := m.updated_at
    published_at := m.published_at
    content_type := m.content_type
    details_url := m.details_url
    preview_image_url := m.preview_image_url
    cover_image_url := m.cover_image_url
    preview_image := m.preview_image
    cover_image := m.cover_image
    screenshot_images := m.screenshot_images
    videos := m.videos
    status := m.status
    moderation_state := m.moderation_state
    error_info := m.error_info
    published := m.published
    beta := m.beta
    maintenance := m.maintenance
    restricted := m.restricted
    use_high_report_threshold := m.use_high_report_threshold
    marketplace := m.marketplace
    review_revision := m.review_revision
    author_price := m.author_price
    required_dlc := m.required_dlc
    required_mods := m.required_mods
    achievement_friendly := m.achievement_friendly
    default_locale := m.default_locale
    supported_locales := m.supported_locales
    release_notes := m.release_notes
    stats := m.stats
    custom_data := m.custom_data
    catalog_info := m.catalog_info
    prices := m.prices }

/-- Pre-parsed form of a caller-supplied detail-URL template: literal runs
interleaved with named replacement fields, as `str.format` sees them.  A
field name other than the two the call site supplies (including positional
fields, whose "name" is empty or numeric) makes `format` raise. -/
inductive TmplPart where
  | lit (s : String)
  | field (name : String)
deriving DecidableEq, Repr

/-- Models `mod_url_template.format(content_id=..., product=...)`: substitute
the two known field names, and fail (`KeyError`/`IndexError`, modelled as
`none`) on any other field. -/
def format_tmpl (parts : List TmplPart) (content_id product : String) : Option String :=
  match parts with
  | [] => some ""
  | .lit s :: rest => (format_tmpl rest content_id product).map (fun r => s ++ r)
  | .field n :: rest =>
    let v : Option String :=
      if n = "content_id" then some content_id
      else if n = "product" then some product
      else none
    v.bind (fun vv => (format_tmpl rest content_id product).map (fun r => vv ++ r))

/-- Models `utils.bethesda_image_url`: `None` on falsy bucket/key, otherwise
the image-CDN URL carrying the base64 JSON descriptor token.  The token
encoding is modelled as an injective pairing of bucket and key; no claim
inspects it. -/
def bethesda_image_url (s3bucket s3key : String) : Option String :=
  if s3bucket = "" ∨ s3key = "" then none
  else some ("https://ugcmods.bethesda.net/image/" ++ s3bucket ++ ":" ++ s3key)

/-- Association-list lookup (Python `dict.get` / the model's table lookup). -/
def assocGet {α : Type} : List (String × α) → String → Option α
  | [], _ => none
  | (k, v) :: rest, key => if k = key then some v else assocGet rest key

/-- Association-list insert-or-replace, keeping the key's position (SQLite
`INSERT ... ON CONFLICT DO UPDATE` keyed by the primary key). -/
def assocSet {α : Type} : List (String × α) → String → α → List (String × α)
  | [], key, v => [(key, v)]
  | (k, w) :: rest, key, v =>
    if k = key then (k, v) :: rest else (k, w) :: assocSet rest key v

/-- `bethesda._extract_image_url` on a string-valued image descriptor: try
the `url`/`uri`/`path`/`link` keys, then an `s3bucket`/`s3key` pair, then any
value that looks like an http URL. -/
def extract_image_url (image_obj : Option ImageBlob) : Option String :=
  match image_obj with
  | none => none
  | some b =>
    if b = [] then none
    else
      let direct := [assocGet b "url", assocGet b "uri", assocGet b "path", assocGet b "link"]
      match (direct.filterMap id).find? (fun v => v ≠ "") with
      | some v => some v
      | none =>
        match assocGet b "s3bucket", assocGet b "s3key" with
        | some bu, some k =>
          if bu ≠ "" ∧ k ≠ "" then bethesda_image_url bu k
          else (b.map Prod.snd).find? (fun v => starts_with_chars "http".data v.data)
        | _, _ => (b.map Prod.snd).find? (fun v => starts_with_chars "http".data v.data)

/-- `bethesda._extract_prices`: collect every price dictionary of every
`catalog_info` entry, in order. -/
def extract_prices (catalog_info : List CatalogEntry) : List Price :=
  (catalog_info.map CatalogEntry.prices).flatten

/-- Models `html.unescape` on the named and numeric entities the catalog
emits; claims never depend on the entity table, only on this being a pure
function of the text. -/
def html_unescape (s : String) : String :=
  String.mk (replace_chars "&amp;".data "&".data
    (replace_chars "&#39;".data "\x27".data
      (replace_chars "&quot;".data "\x22".data
        (replace_chars "&gt;".data ">".data
          (replace_chars "&lt;".data "<".data s.data)))))

/-- A raw catalog item as `bethesda.parse_mod` reads it: the result of each
`item.get(...)` access, typed.  Fields the source passes through `bool(...)`
are carried as the resulting `Bool`; epoch fields are the raw integers;
opaque payloads follow the serialization convention of the header comment. -/
structure RawItem where
  content_id : Option String
  product : Option String
  title : Option String
  overview : Option String
  description : Option String
  product_title : Option String
  content_type : Option String
  hardware_platforms : Option (List String)
  categories : Option (List String)
  author_displayname : Option String
  author_buid : Option String
  author_verified : Bool
  author_official : Bool
  published_buid : Option String
  updated_buid : Option String
  ctime : Option Int
  ptime : Option Int
  first_ptime : Option Int
  utime : Option Int
  status : Option String
  moderation_state : Option String
  error_info : Option String
  deleted : Bool
  published : Bool
  moderated : Bool
  beta : Bool
  maintenance : Bool
  restricted : Bool
  use_high_report_threshold : Bool
  marketplace : Bool
  review_revision : Bool
  author_price : String
  required_dlc : Option String
  required_mods : Option (List String)
  achievement_friendly : Bool
  default_locale : Option String
  supported_locales : Option (List String)
  release_notes : Option String
  stats : Option String
  custom_data : String
  catalog_info : Option (List CatalogEntry)
  preview_image : Option ImageBlob
  cover_image : Option ImageBlob
  screenshot_images : Option String
  videos : Option String
deriving DecidableEq, Repr

/-- `bethesda.parse_mod`: normalize a raw catalog item into a `Mod`.  The
detail URL comes from the caller-supplied template when one is given — a
substitution failure is caught and leaves the URL `None` — and from the
canonical path scheme when no template is given. -/
def parse_mod (item : RawItem) (mod_url_template : Option (List TmplPart)) : Mod :=
  let mod_id := (py_or_str item.content_id (some "")).getD ""
  let product := (py_or_str item.product (some "")).getD ""
  let details_url : Option String :=
    if mod_id ≠ "" ∧ product ≠ "" then
      match mod_url_template with
      | some tmpl => format_tmpl tmpl mod_id product
      | none =>
        some ("https://creations.bethesda.net/en/" ++ lower_string product ++ "/details/" ++ mod_id)
    else none
  let description_raw :=
    if ¬ py_str_truthy item.description ∧ py_str_truthy item.overview then item.overview
    else item.description
  let overview_raw :=
    if ¬ py_str_truthy item.overview ∧ py_str_truthy item.description then item.description
    else item.overview
  { mod_id := mod_id
    title := html_unescape ((py_or_str item.title (some "")).getD "")
    overview := if py_str_truthy overview_raw then some (html_unescape (overview_raw.getD "")) else none
    description := if py_str_truthy description_raw then some (html_unescape (description_raw.getD "")) else none
    product := product
    product_title :=
      if py_str_truthy item.product_title then some (html_unescape (item.product_title.getD "")) else none
    content_type := item.content_type
    hardware_platforms := item.hardware_platforms.getD []
    categories := item.categories.getD []
    author_displayname :=
      if py_str_truthy item.author_displayname then some (html_unescape (item.author_displayname.getD "")) else none
    author_buid := item.author_buid
    author_verified := item.author_verified
    author_official := item.author_official
    published_buid := item.published_buid
    updated_buid := item.updated_buid
    created_at := iso_from_epoch item.ctime
    published_at := iso_from_epoch item.ptime
    first_published_at := iso_from_epoch item.first_ptime
    updated_at := iso_from_epoch item.utime
    status := item.status
    moderation_state := item.moderation_state
    error_info := item.error_info
    deleted := item.deleted
    published := item.published
    moderated := item.moderated
    beta := item.beta
    maintenance := item.maintenance
    restricted := item.restricted
    use_high_report_threshold := item.use_high_report_threshold
    marketplace := item.marketplace
    review_revision := item.review_revision
    author_price := item.author_price
    required_dlc := item.required_dlc.getD "[]"
    required_mods := item.required_mods.getD []
    achievement_friendly := item.achievement_friendly
    default_locale := item.default_locale
    supported_locales := item.supported_locales.getD []
    release_notes := item.release_notes.getD "[]"
    stats := item.stats.getD "\x7b\x7d"
    custom_data := item.custom_data
    catalog_info := item.catalog_info.getD []
    prices := extract_prices (item.catalog_info.getD [])
    preview_image_url := extract_image_url item.preview_image
    cover_image_url := extract_image_url item.cover_image
    preview_image := item.preview_image.getD []
    cover_image := item.cover_image.getD []
    screenshot_images := item.screenshot_images.getD "[]"
    videos := item.videos.getD "[]"
    details_url := details_url }

/-- One row of the ledger's `mods` table (`vcbot/db.py`): the mirrored
`Mod` columns — the upsert writes every one of them from the incoming entry —
plus the bookkeeping columns.  `first_seen_at` and `last_seen_at` are
`NOT NULL` in the schema. -/
structure ModRecord where
  mod : Mod
  first_seen_at : String
  last_seen_at : String
  last_seen_ptime : Option String
  last_posted_at : Option String
  last_update_posted_at : Option String
  last_known_hash : Option HashPayload
deriving DecidableEq, Repr

/-- One row of the ledger's `posts` table, in column order. -/
structure PostRow where
  mod_id : String
  post_id : String
  post_type : String
  target : String
  success : Bool
  error_message : Option String
  posted_at : String
  title : Option String
  url : Option String
deriving DecidableEq, Repr

/-- The `SQLiteStore` state: the `mods` table keyed by `mod_id`, the
append-only `posts` table in rowid order, and the `meta` key-value table. -/
structure Store where
  mods : List (String × ModRecord)
  posts : List PostRow
  meta : List (String × String)
deriving DecidableEq, Repr

/-- `SQLiteStore.get_mod`. -/
def get_mod (s : Store) (mod_id : String) : Option ModRecord :=
  assocGet s.mods mod_id

/-- `SQLiteStore.get_meta`. -/
def get_meta (s : Store) (key : String) : Option String :=
  assocGet s.meta key

/-- `SQLiteStore.set_meta` (`INSERT ... ON CONFLICT(key) DO UPDATE`). -/
def set_meta (s : Store) (key value : String) : Store :=
  { s with meta := assocSet s.meta key value }

/-- `SQLiteStore.get_failed_posts`: the distinct `(mod_id, post_type)` pairs
having at least one `success = 0` row for the target.  SQLite's `GROUP BY`
leaves the output order unspecified; the model keeps first-occurrence order,
and claims about this query read it as a set. -/
def get_failed_posts (s : Store) (target : String) : List (String × String) :=
  (((s.posts.filter (fun r => decide (r.target = target ∧ r.success = false))).map
      (fun r => (r.mod_id, r.post_type))).dedup)

/-- `SQLiteStore.upsert_mod`: insert-or-merge by `mod_id`.  Every mirrored
column and `last_seen_at`/`last_seen_ptime`/`last_known_hash` take the
incoming values; `first_seen_at` is `COALESCE(mods.first_seen_at, excluded.first_seen_at)`,
and the column is `NOT NULL`, so an existing row keeps its value; the
post markers are not in the update list. -/
def upsert_mod (s : Store) (mod : Mod) (last_seen_at : String) (mod_hash : HashPayload) : Store :=
  let merged : ModRecord :=
    match assocGet s.mods mod.mod_id with
    | none =>
      { mod := mod
        first_seen_at := last_seen_at
        last_seen_at := last_seen_at
        last_seen_ptime := mod.published_at
        last_posted_at := none
        last_update_posted_at := none
        last_known_hash := some mod_hash }
    | some old =>
      { mod := mod
        first_seen_at := old.first_seen_at
        last_seen_at := last_seen_at
        last_seen_ptime := mod.published_at
        last_posted_at := old.last_posted_at
        last_update_posted_at := old.last_update_posted_at
        last_known_hash := some mod_hash }
  { s with mods := assocSet s.mods mod.mod_id merged }

/-- `SQLiteStore.mark_posted`: reject an invalid `post_type` (`ValueError`),
a duplicate `(mod_id, post_type, post_id)` triple (the unique index
`idx_posts_unique`) and an unknown `mod_id` (the `posts.mod_id` foreign key
with `PRAGMA foreign_keys = ON`); otherwise append the attempt row and stamp
the record's `last_posted_at` (action `new`) or `last_update_posted_at`
(action `update`) with `posted_at`, whatever `success` is. -/
def mark_posted (s : Store) (mod_id post_type post_id : String) (posted_at : String)
    (title url : Option String) (target : String) (success : Bool)
    (error_message : Option String) : Except String Store :=
  if ¬ (post_type = "new" ∨ post_type = "update") then
    Except.error "post_type must be new or update"
  else if s.posts.any
      (fun r => decide (r.mod_id = mod_id ∧ r.post_type = post_type ∧ r.post_id = post_id)) then
    Except.error "UNIQUE constraint failed: posts"
  else
    match assocGet s.mods mod_id with
    | none => Except.error "FOREIGN KEY constraint failed"
    | some r0 =>
      let row : PostRow :=
        { mod_id := mod_id, post_id := post_id, post_type := post_type, target := target
          success := success, error_message := error_message, posted_at := posted_at
          title := title, url := url }
      let r1 :=
        if post_type = "new" then { r0 with last_posted_at := some posted_at }
        else { r0 with last_update_posted_at := some posted_at }
      Except.ok { s with posts := s.posts ++ [row], mods := assocSet s.mods mod_id r1 }

/-- The fields of `Config` that the embedded pipeline reads
(`vcbot/config.py`): the product selector, the per-product hard stops, the
studio ignore cutoff and the synthetic cutoff override. -/
structure Config where
  product : String
  fallout4_hard_stop : String
  skyrim_hard_stop : String
  starfield_hard_stop : String
  bgs_ignore_before : String
  synthetic_last_seen_first_ptime : Option String
deriving DecidableEq, Repr

/-- `app._is_update_due`: the Change Detector's update test against an
existing ledger record. -/
def is_update_due (existing : ModRecord) (mod : Mod) (mod_hash : HashPayload) : Bool :=
  let changed := decide (existing.last_known_hash ≠ some mod_hash)
  let updated_at := (parse_iso mod.published_at).orElse (fun _ => parse_iso mod.updated_at)
  let last_update_posted_at :=
    parse_iso (py_or_str existing.last_update_posted_at existing.last_posted_at)
  match updated_at, last_update_posted_at with
  | some u, some l => decide (l < u)
  | some _, none => true
  | none, _ => changed

/-- `app._has_paid_price`: is any listed price a positive number?  A missing
or `null` amount fails the `is not None` guard; a value `float` rejects is
skipped. -/
def has_paid_price (prices : List Price) : Bool :=
  prices.any fun p =>
    match p.amount with
    | .absent => false
    | .null => false
    | v =>
      match float_of_amount v with
      | some q => decide (0 < q)
      | none => false

/-- `app._passes_hard_stop`: for the three known products, the entry's
first-published (else published) instant must be at or after the product's
hard stop; unknown products and unparseable instants pass. -/
def passes_hard_stop (mod : Mod) (config : Config) : Bool :=
  let check : Option Nat → Bool := fun cutoff =>
    let mod_date := (parse_iso mod.first_published_at).orElse (fun _ => parse_iso mod.published_at)
    match cutoff, mod_date with
    | some c, some d => decide (c ≤ d)
    | _, _ => true
  if mod.product = "FALLOUT4" then check (parse_iso (some config.fallout4_hard_stop))
  else if mod.product = "SKYRIM" then check (parse_iso (some config.skyrim_hard_stop))
  else if mod.product = "STARFIELD" then check (parse_iso (some config.starfield_hard_stop))
  else true

/-- `app._passes_bgs_ignore`: only the designated studio account is held to
the configured ignore-before cutoff; unparseable instants pass. -/
def passes_bgs_ignore (mod : Mod) (config : Config) : Bool :=
  if lower_string (mod.author_displayname.getD "") ≠ "bethesdagamestudios" then true
  else
    let cutoff := parse_iso (some config.bgs_ignore_before)
    let mod_date := (parse_iso mod.first_published_at).orElse (fun _ => parse_iso mod.published_at)
    match cutoff, mod_date with
    | some c, some d => decide (c ≤ d)
    | _, _ => true

/-- `app._is_new_creation`: the Eligibility Engine, rule for rule in source
order — hard stop, studio ignore, verified author, then pricing with the
studio zero-price bypass. -/
def is_new_creation (mod : Mod) (config : Config) : Bool :=
  if ¬ passes_hard_stop mod config then false
  else if ¬ passes_bgs_ignore mod config then false
  else if ¬ mod.author_verified then false
  else if mod.prices.isEmpty then
    if lower_string (mod.author_displayname.getD "") ≠ "bethesdagamestudios" then false
    else true
  else if ¬ has_paid_price mod.prices then
    if lower_string (mod.author_displayname.getD "") ≠ "bethesdagamestudios" then false
    else true
  else true

/-- `app._determine_action`: classify an entry as `new`, `update` or nothing
(`none`). -/
def determine_action (existing : Option ModRecord) (mod : Mod) (mod_hash : HashPayload)
    (post_new post_updates : Bool) (config : Config) : Option String :=
  match existing with
  | none => if post_new && is_new_creation mod config then some "new" else none
  | some ex => if post_updates && is_update_due ex mod mod_hash then some "update" else none

/-- `app._meta_key_first_ptime`. -/
def meta_key_first_ptime (product : String) : String :=
  "last_seen_first_ptime:" ++ product

/-- `app._resolve_first_ptime_cutoff`: the synthetic override when set; in a
dry run the (possibly unset) override; otherwise the persisted per-product
high-water mark. -/
def resolve_first_ptime_cutoff (config : Config) (store : Store) (dry_run : Bool) : Option String :=
  if py_str_truthy config.synthetic_last_seen_first_ptime then
    config.synthetic_last_seen_first_ptime
  else if dry_run then config.synthetic_last_seen_first_ptime
  else get_meta store (meta_key_first_ptime config.product)

/-- `app._is_before_or_equal_first_ptime`: the walker's per-item stop test;
false whenever either instant fails to parse. -/
def is_before_or_equal_first_ptime (mod : Mod) (cutoff : String) : Bool :=
  let mod_time := (parse_iso mod.first_published_at).orElse (fun _ => parse_iso mod.published_at)
  match mod_time, parse_iso (some cutoff) with
  | some m, some c => decide (m ≤ c)
  | _, _ => false

/-- `app._hard_stop_for_product` on the run's configured product. -/
def hard_stop_for_product (config : Config) : Option String :=
  if config.product = "FALLOUT4" then some config.fallout4_hard_stop
  else if config.product = "SKYRIM" then some config.skyrim_hard_stop
  else if config.product = "STARFIELD" then some config.starfield_hard_stop
  else none

/-- `app._max_iso`: the later of two optional instant strings when both
parse, otherwise Python's `left or right`. -/
def max_iso (left right : Option String) : Option String :=
  match parse_iso left, parse_iso right with
  | some l, some r => if r ≤ l then left else right
  | _, _ => py_or_str left right

/-- The running-maximum update of `sync_mods`:
`if mod.first_published_at and (max is None or fp > max)` — a lexicographic
string comparison, as in the source. -/
def track_max (fp acc : Option String) : Option String :=
  if py_str_truthy fp then
    match fp, acc with
    | some f, none => some f
    | some f, some a => if str_lt a f then some f else acc
    | none, _ => acc
  else acc

/-- The in-page loop state of `app.sync_mods`: the ledger, the accumulated
actions, the stop flag and the running maximum of first-published instants. -/
structure ItemState where
  store : Store
  actions : List (String × Mod)
  stop : Bool
  max_first_ptime : Option String
deriving DecidableEq, Repr

/-- One iteration of the per-item loop of `app.sync_mods`: skip items with a
missing id; raise the stop flag at the cutoff but keep processing; classify
against the current ledger state; upsert; record the action (or, in
emit-eligible mode, an eligible entry); track the first-published maximum.
The page-local minimum the source also tracks feeds only a log line and is
omitted. -/
def process_item (config : Config) (post_new post_updates emit_eligible : Bool)
    (effective_cutoff : Option String) (now : String) (st : ItemState) (mod : Mod) : ItemState :=
  if mod.mod_id = "" then st
  else
    let stop := st.stop ||
      (py_str_truthy effective_cutoff &&
        is_before_or_equal_first_ptime mod (effective_cutoff.getD ""))
    let mod_hash := compute_mod_hash mod
    let existing := get_mod st.store mod.mod_id
    let action := determine_action existing mod mod_hash post_new post_updates config
    let eligible := is_new_creation mod config
    let store := upsert_mod st.store mod now mod_hash
    let actions :=
      match action with
      | some a => st.actions ++ [(a, mod)]
      | none => if emit_eligible && eligible then st.actions ++ [("new", mod)] else st.actions
    { store := store
      actions := actions
      stop := stop
      max_first_ptime := track_max mod.first_published_at st.max_first_ptime }

/-- The observable outcome of a `sync_mods` run: the final ledger, the
returned `(action, mod)` list and total-seen count, plus — as ghost outputs
for the theorems — the run's first-published maximum and the number of pages
fetched from the source. -/
structure LoopState where
  store : Store
  actions : List (String × Mod)
  total_seen : Nat
  max_first_ptime : Option String
  pages_fetched : Nat
deriving DecidableEq, Repr

/-- The per-item fold over one fetched page, starting from a cleared stop
flag (the source resets `stop = False` at each page). -/
def page_fold (config : Config) (post_new post_updates emit_eligible : Bool)
    (effective_cutoff : Option String) (now : String) (st : LoopState)
    (mods : List Mod) : ItemState :=
  mods.foldl (process_item config post_new post_updates emit_eligible effective_cutoff now)
    { store := st.store, actions := st.actions, stop := false,
      max_first_ptime := st.max_first_ptime }

/-- The loop state after one page: the fold's outcome plus the page's length
added to `total_seen` and one more fetch counted. -/
def page_step (config : Config) (post_new post_updates emit_eligible : Bool)
    (effective_cutoff : Option String) (now : String) (st : LoopState)
    (mods : List Mod) : LoopState :=
  { store := (page_fold config post_new post_updates emit_eligible effective_cutoff now st mods).store
    actions := (page_fold config post_new post_updates emit_eligible effective_cutoff now st mods).actions
    total_seen := st.total_seen + mods.length
    max_first_ptime :=
      (page_fold config post_new post_updates emit_eligible effective_cutoff now st mods).max_first_ptime
    pages_fetched := st.pages_fetched + 1 }

/-- The page loop of `app.sync_mods` over the remote source, modelled as the
list of pages the source would serve in order; once the list is exhausted the
source returns an empty page, which breaks the loop.  A page is processed
item by item, then the loop breaks if the stop flag was raised or the page
was empty. -/
def sync_pages (config : Config) (post_new post_updates emit_eligible : Bool)
    (effective_cutoff : Option String) (now : String) :
    List (List Mod) → LoopState → LoopState
  | [], st => { st with pages_fetched := st.pages_fetched + 1 }
  | mods :: rest, st =>
    if (page_fold config post_new post_updates emit_eligible effective_cutoff now st mods).stop
        || mods.isEmpty then
      page_step config post_new post_updates emit_eligible effective_cutoff now st mods
    else
      sync_pages config post_new post_updates emit_eligible effective_cutoff now rest
        (page_step config post_new post_updates emit_eligible effective_cutoff now st mods)

/-- The effective cutoff of `app.sync_mods`: the later of the resolved
first-ptime cutoff and the product's hard stop. -/
def effective_cutoff (config : Config) (store : Store) (dry_run : Bool) : Option String :=
  max_iso (resolve_first_ptime_cutoff config store dry_run) (hard_stop_for_product config)

/-- The final step of `app.sync_mods`: outside a dry run, persist the run's
first-published maximum under the per-product meta key whenever one was
observed (`if max_first_ptime and not dry_run`). -/
def finalize_meta (config : Config) (dry_run : Bool) (r : LoopState) : LoopState :=
  match r.max_first_ptime, dry_run with
  | some v, false =>
    if v ≠ "" then { r with store := set_meta r.store (meta_key_first_ptime config.product) v }
    else r
  | _, _ => r

/-- `app.sync_mods`: resolve the cutoff, walk the pages, persist the new
high-water mark when due. -/
def sync_mods (config : Config) (store : Store) (pages : List (List Mod))
    (post_new post_updates dry_run emit_eligible : Bool) (now : String) : LoopState :=
  finalize_meta config dry_run
    (sync_pages config post_new post_updates emit_eligible
      (effective_cutoff config store dry_run) now pages
      { store := store, actions := [], total_seen := 0, max_first_ptime := none,
        pages_fetched := 0 })

/-- Modelled from the spec, for claim C1: the update-due rule as the spec
states it, with the entry side read from first-published falling back to
published.  Compared against `is_update_due`, which is the code's rule. -/
def update_due_per_claim (existing : ModRecord) (mod : Mod) (mod_hash : HashPayload) : Bool :=
  let entry_instant := (parse_iso mod.first_published_at).orElse (fun _ => parse_iso mod.published_at)
  let record_instant :=
    parse_iso (py_or_str existing.last_update_posted_at existing.last_posted_at)
  match entry_instant, record_instant with
  | some e, some r => decide (r < e)
  | some _, none => true
  | none, _ => decide (existing.last_known_hash ≠ some mod_hash)

/-- Modelled from the spec, for claim C3: the most recent delivery attempt
for a `(target, mod_id, post_type)` triple, reading "most recent" as the last
appended matching row of the append-only attempt log. -/
def latest_matching_attempt (posts : List PostRow) (target mod_id post_type : String) :
    Option PostRow :=
  (posts.filter
    (fun r => decide (r.target = target ∧ r.mod_id = mod_id ∧ r.post_type = post_type))).getLast?

/-- A catalog entry with every optional field absent and every flag clear:
the common base of the concrete test fixtures below. -/
def baseMod : Mod :=
  { mod_id := "", title := "", overview := none, description := none, product := ""
    product_title := none, content_type := none, hardware_platforms := [], categories := []
    author_displayname := none, author_buid := none, author_verified := false
    author_official := false, published_buid := none, updated_buid := none
    created_at := none, published_at := none, first_published_at := none, updated_at := none
    status := none, moderation_state := none, error_info := none
    deleted := false, published := false, moderated := false, beta := false
    maintenance := false, restricted := false, use_high_report_threshold := false
    marketplace := false, review_revision := false
    author_price := "null", required_dlc := "[]", required_mods := []
    achievement_friendly := false, default_locale := none, supported_locales := []
    release_notes := "[]", stats := "\x7b\x7d", custom_data := "null"
    catalog_info := [], prices := []
    preview_image_url := none, cover_image_url := none
    preview_image := [], cover_image := [], screenshot_images := "[]", videos := "[]"
    details_url := none }


/-- C10 — the content hash ignores exactly the identity/lifecycle fields the
claim lists: two mods that differ only in `mod_id`, `product`,
`product_title`, `author_buid`, `created_at`, `first_published_at`,
`deleted` or `moderated` produce the same digest; in particular a change in
only the first-published instant cannot change the hash. -/
theorem hash_independent_of_identity_fields (m : Mod) (id prod : String)
    (ptitle abuid ca fp : Option String) (d md : Bool) :
    compute_mod_hash
      { m with
        mod_id := id, product := prod, product_title := ptitle,
        author_buid := abuid, created_at := ca, first_published_at := fp,
        deleted := d, moderated := md } = compute_mod_hash m := rfl

/-- C1 fixture: an entry first published at instant 100 whose current
publication instant is 300, against a record whose last update post happened
at instant 200 and whose stored hash matches the fresh hash. -/
def c1_mod : Mod := { baseMod with first_published_at := some "100", published_at := some "300" }

/-- C1 fixture: the existing ledger record for `c1_mod`. -/
def c1_existing : ModRecord :=
  { mod := baseMod, first_seen_at := "0", last_seen_at := "0", last_seen_ptime := none,
    last_posted_at := none, last_update_posted_at := some "200",
    last_known_hash := some (compute_mod_hash c1_mod) }

/-- C1 counterexample — the Change Detector does not compare the
first-published instant: for `c1_mod` the claim's rule (first-published 100
is not newer than the last update post 200, and the hash is unchanged) says
no update is due, but `_is_update_due` compares the published instant 300
and says an update is due. -/
theorem c1_change_detector_counterexample :
    is_update_due c1_existing c1_mod (compute_mod_hash c1_mod) = true ∧
    update_due_per_claim c1_existing c1_mod (compute_mod_hash c1_mod) = false := by
  constructor <;> rfl

/-- C1 amended — `_is_update_due` compares the entry's published instant
falling back to its updated instant (not first-published falling back to
published) against the record's last-update-post falling back to last-post
instant: strictly newer when both parse, due when only the entry's side
parses, hash inequality when the entry's side does not parse. -/
theorem c1_update_due_characterization (existing : ModRecord) (mod : Mod)
    (mod_hash : HashPayload) :
    is_update_due existing mod mod_hash = true ↔
      ((∃ u l, (parse_iso mod.published_at).orElse (fun _ => parse_iso mod.updated_at) = some u ∧
          parse_iso (py_or_str existing.last_update_posted_at existing.last_posted_at) = some l ∧
          l < u)
        ∨ ((∃ u, (parse_iso mod.published_at).orElse (fun _ => parse_iso mod.updated_at) = some u) ∧
          parse_iso (py_or_str existing.last_update_posted_at existing.last_posted_at) = none)
        ∨ ((parse_iso mod.published_at).orElse (fun _ => parse_iso mod.updated_at) = none ∧
          existing.last_known_hash ≠ some mod_hash)) := by
  unfold is_update_due
  rcases hu : (parse_iso mod.published_at).orElse (fun _ => parse_iso mod.updated_at) with _ | u <;>
    rcases hl : parse_iso (py_or_str existing.last_update_posted_at existing.last_posted_at) with _ | l <;>
    simp [hu, hl]

/-- C6 fixture: a policy with no parseable hard stop or studio cutoff. -/
def c6_config : Config :=
  { product := "SKYRIM", fallout4_hard_stop := "", skyrim_hard_stop := "",
    starfield_hard_stop := "", bgs_ignore_before := "",
    synthetic_last_seen_first_ptime := none }

/-- C6 fixture: a zero-price entry authored by the studio account whose
author is not marked verified. -/
def c6_mod : Mod :=
  { baseMod with
    product := "SKYRIM", author_displayname := some "BethesdaGameStudios",
    author_verified := false, prices := [] }

/-- C6 counterexample — the studio bypass is not unconditional: `c6_mod` has
an empty price list and the studio author, yet `_is_new_creation` rejects it
because the author is not marked verified (the verified-author rule precedes
the pricing rule). -/
theorem c6_studio_bypass_counterexample :
    c6_mod.prices = [] ∧
    lower_string (c6_mod.author_displayname.getD "") = "bethesdagamestudios" ∧
    is_new_creation c6_mod c6_config = false := by
  refine ⟨rfl, by decide, by decide⟩

/-- C6 amended — the pricing rule itself behaves as claimed once the earlier
rules pass: a zero-price entry by any non-studio account is never eligible,
and a studio-account entry with no prices, or with no positive numeric
price, is eligible provided it passes the hard-stop, studio-ignore and
verified-author rules first. -/
theorem c6_studio_bypass_conditional (mod : Mod) (config : Config) :
    (mod.prices = [] →
      lower_string (mod.author_displayname.getD "") ≠ "bethesdagamestudios" →
      is_new_creation mod config = false)
    ∧ (lower_string (mod.author_displayname.getD "") = "bethesdagamestudios" →
      passes_hard_stop mod config = true →
      passes_bgs_ignore mod config = true →
      mod.author_verified = true →
      (mod.prices = [] ∨ has_paid_price mod.prices = false) →
      is_new_creation mod config = true) := by
  constructor
  · intro hempty hauthor
    simp [is_new_creation, hempty, hauthor]
  · intro hauthor h1 h2 h3 hprice
    rcases hprice with hempty | hnopaid
    · simp [is_new_creation, h1, h2, h3, hempty, hauthor]
    · simp [is_new_creation, h1, h2, h3, hnopaid, hauthor]

/-- C6 witness — the amended rule at concrete inputs: an unpriced entry by
account `"alice"` is rejected, and the same unpriced entry by the verified
studio account is accepted. -/
theorem c6_studio_bypass_conditional_witness :
    is_new_creation
      { baseMod with
        author_displayname := some "alice", author_verified := true, prices := [] }
      c6_config = false ∧
    is_new_creation
      { baseMod with
        author_displayname := some "BethesdaGameStudios", author_verified := true,
        prices := [] }
      c6_config = true := by
  constructor
  · exact (c6_studio_bypass_conditional _ c6_config).1 rfl (by decide)
  · exact (c6_studio_bypass_conditional _ c6_config).2 (by decide) (by decide) (by decide)
      rfl (Or.inl rfl)

/-- Lookup after insert-or-replace: the written key reads back the new
value, any other key is untouched. -/
theorem assocGet_assocSet {α : Type} (l : List (String × α)) (k k' : String) (v : α) :
    assocGet (assocSet l k v) k' = if k = k' then some v else assocGet l k' := by
  induction l with
  | nil =>
    by_cases h : k = k' <;> simp [assocSet, assocGet, h]
  | cons hd tl ih =>
    obtain ⟨k0, w⟩ := hd
    by_cases h0 : k0 = k
    · subst h0
      by_cases h1 : k0 = k' <;> simp [assocSet, assocGet, h1]
    · simp only [assocSet, if_neg h0, assocGet]
      by_cases h1 : k0 = k'
      · subst h1
        rw [if_pos rfl, if_pos rfl, if_neg (fun hh => h0 hh.symm)]
      · rw [if_neg h1, if_neg h1, ih]

/-- Reading back the upserted key: the stored record is the insert-or-merge
of the incoming entry with whatever the ledger previously held. -/
theorem get_mod_upsert_self (s : Store) (m : Mod) (t : String) (h : HashPayload) :
    get_mod (upsert_mod s m t h) m.mod_id = some
      (match get_mod s m.mod_id with
      | none =>
        { mod := m, first_seen_at := t, last_seen_at := t, last_seen_ptime := m.published_at,
          last_posted_at := none, last_update_posted_at := none, last_known_hash := some h }
      | some old =>
        { mod := m, first_seen_at := old.first_seen_at, last_seen_at := t,
          last_seen_ptime := m.published_at, last_posted_at := old.last_posted_at,
          last_update_posted_at := old.last_update_posted_at, last_known_hash := some h }) := by
  simp [get_mod, upsert_mod, assocGet_assocSet]

/-- C7 — ledger upsert bookkeeping: after two upserts to the same entry id,
`first_seen_at` keeps the value the first upsert established, the mirrored
entry and `last_seen_at`/`last_seen_ptime`/`last_known_hash` come from the
second upsert, and the post markers are untouched. -/
theorem c7_upsert_first_write_wins (s : Store) (m1 m2 : Mod) (t1 t2 : String)
    (h1 h2 : HashPayload) (heq : m1.mod_id = m2.mod_id) :
    ∃ r1 r2,
      get_mod (upsert_mod s m1 t1 h1) m1.mod_id = some r1 ∧
      get_mod (upsert_mod (upsert_mod s m1 t1 h1) m2 t2 h2) m2.mod_id = some r2 ∧
      r2.first_seen_at = r1.first_seen_at ∧
      r2.mod = m2 ∧
      r2.last_seen_at = t2 ∧
      r2.last_seen_ptime = m2.published_at ∧
      r2.last_known_hash = some h2 ∧
      r2.last_posted_at = r1.last_posted_at ∧
      r2.last_update_posted_at = r1.last_update_posted_at := by
  obtain ⟨r1, hr1⟩ : ∃ r1, get_mod (upsert_mod s m1 t1 h1) m1.mod_id = some r1 :=
    ⟨_, get_mod_upsert_self s m1 t1 h1⟩
  have e2 := get_mod_upsert_self (upsert_mod s m1 t1 h1) m2 t2 h2
  have hscrut : get_mod (upsert_mod s m1 t1 h1) m2.mod_id = some r1 := by
    rw [← heq]
    exact hr1
  rw [hscrut] at e2
  exact ⟨r1, _, hr1, e2, rfl, rfl, rfl, rfl, rfl, rfl, rfl⟩

/-- C7 witness fixture: an empty ledger. -/
def emptyStore : Store := { mods := [], posts := [], meta := [] }

/-- C7 witness fixture: entry `"w7"` as first fetched. -/
def c7_mod_a : Mod := { baseMod with mod_id := "w7" }

/-- C7 witness fixture: entry `"w7"` as fetched again with a new title. -/
def c7_mod_b : Mod := { baseMod with mod_id := "w7", title := "t2" }

/-- C7 witness — the bookkeeping law applied to two concrete upserts of
entry `"w7"`. -/
theorem c7_upsert_first_write_wins_witness :
    ∃ r1 r2,
      get_mod (upsert_mod emptyStore c7_mod_a "5" (compute_mod_hash c7_mod_a)) "w7" = some r1 ∧
      get_mod (upsert_mod (upsert_mod emptyStore c7_mod_a "5" (compute_mod_hash c7_mod_a))
        c7_mod_b "9" (compute_mod_hash c7_mod_b)) "w7" = some r2 ∧
      r2.first_seen_at = r1.first_seen_at ∧
      r2.mod = c7_mod_b ∧
      r2.last_seen_at = "9" ∧
      r2.last_seen_ptime = c7_mod_b.published_at ∧
      r2.last_known_hash = some (compute_mod_hash c7_mod_b) ∧
      r2.last_posted_at = r1.last_posted_at ∧
      r2.last_update_posted_at = r1.last_update_posted_at :=
  c7_upsert_first_write_wins emptyStore c7_mod_a c7_mod_b
    "5" "9" (compute_mod_hash c7_mod_a) (compute_mod_hash c7_mod_b) rfl

/-- C8 — `mark_posted` appends one attempt row and stamps the matching post
marker with the attempt's `posted_at` whatever `success` is: for a valid
action kind, a fresh `(mod_id, post_type, post_id)` triple and an existing
entry record, the call succeeds, the attempt log becomes the old log plus
the new row (no existing row is touched), and the record's `last_posted_at`
(action `new`) or `last_update_posted_at` (action `update`) becomes
`posted_at`. -/
theorem c8_mark_posted_appends_and_stamps (s : Store)
    (mod_id post_type post_id posted_at target : String)
    (title url error_message : Option String) (success : Bool) (r0 : ModRecord)
    (hty : post_type = "new" ∨ post_type = "update")
    (hfresh : s.posts.any
      (fun r => decide (r.mod_id = mod_id ∧ r.post_type = post_type ∧ r.post_id = post_id))
      = false)
    (hex : assocGet s.mods mod_id = some r0) :
    ∃ s', mark_posted s mod_id post_type post_id posted_at title url target success
        error_message = Except.ok s' ∧
      s'.posts = s.posts ++
        [{ mod_id := mod_id, post_id := post_id, post_type := post_type, target := target,
           success := success, error_message := error_message, posted_at := posted_at,
           title := title, url := url }] ∧
      get_mod s' mod_id = some
        (if post_type = "new" then { r0 with last_posted_at := some posted_at }
         else { r0 with last_update_posted_at := some posted_at }) := by
  unfold mark_posted
  rw [if_neg (not_not_intro hty)]
  simp only [hfresh, Bool.false_eq_true, if_false, hex]
  refine ⟨_, rfl, rfl, ?_⟩
  simp [get_mod, assocGet_assocSet]

/-- C8 witness — a failed (`success = false`) `update` delivery attempt on a
one-record ledger: the row is appended and `last_update_posted_at` is
stamped anyway. -/
theorem c8_mark_posted_appends_and_stamps_witness :
    ∃ s', mark_posted
        { mods := [("w7", c1_existing)], posts := [], meta := [] }
        "w7" "update" "p1" "77" none none "reddit" false (some "boom") = Except.ok s' ∧
      s'.posts = [] ++
        [{ mod_id := "w7", post_id := "p1", post_type := "update", target := "reddit",
           success := false, error_message := some "boom", posted_at := "77",
           title := none, url := none }] ∧
      get_mod s' "w7" = some
        (if "update" = "new" then { c1_existing with last_posted_at := some "77" }
         else { c1_existing with last_update_posted_at := some "77" }) :=
  c8_mark_posted_appends_and_stamps _ "w7" "update" "p1" "77" "reddit" none none
    (some "boom") false c1_existing (Or.inr rfl) rfl rfl

/-- C3 fixture: a plain ledger record for entry `"m1"`. -/
def c3_record : ModRecord :=
  { mod := baseMod, first_seen_at := "0", last_seen_at := "0", last_seen_ptime := none,
    last_posted_at := none, last_update_posted_at := none, last_known_hash := none }

/-- C3 fixture: a failed reddit attempt for `("m1", "new")`. -/
def c3_fail_row : PostRow :=
  { mod_id := "m1", post_id := "p1", post_type := "new", target := "reddit",
    success := false, error_message := some "boom", posted_at := "10",
    title := none, url := none }

/-- C3 fixture: a later successful reddit attempt for the same pair. -/
def c3_success_row : PostRow :=
  { mod_id := "m1", post_id := "p2", post_type := "new", target := "reddit",
    success := true, error_message := none, posted_at := "20",
    title := some "t", url := some "u" }

/-- C3 fixture: a ledger whose attempt log holds the failed attempt and then
the successful replay. -/
def c3_store : Store :=
  { mods := [("m1", c3_record)], posts := [c3_fail_row, c3_success_row], meta := [] }

/-- C3 counterexample — `get_failed_posts` keys on the existence of any
failed row, not on the most recent attempt: in `c3_store` the latest reddit
attempt for `("m1", "new")` succeeded, yet the pair is still returned. -/
theorem c3_failed_deliveries_counterexample :
    ("m1", "new") ∈ get_failed_posts c3_store "reddit" ∧
    (latest_matching_attempt c3_store.posts "reddit" "m1" "new").map PostRow.success
      = some true := by
  constructor
  · decide
  · rfl

/-- C3 amended — `get_failed_posts` returns exactly the distinct
`(entry_id, action_kind)` pairs that have at least one `success = false`
attempt row for the target, regardless of whether a newer attempt for the
same pair succeeded. -/
theorem c3_failed_deliveries_membership (s : Store) (target : String) (p : String × String) :
    p ∈ get_failed_posts s target ↔
      ∃ r ∈ s.posts, r.target = target ∧ r.success = false ∧ (r.mod_id, r.post_type) = p := by
  unfold get_failed_posts
  simp only [List.mem_dedup, List.mem_map, List.mem_filter, decide_eq_true_eq]
  constructor
  · rintro ⟨r, ⟨hr, hcond⟩, hp⟩
    exact ⟨r, hr, hcond.1, hcond.2, hp⟩
  · rintro ⟨r, hr, h1, h2, hp⟩
    exact ⟨r, ⟨hr, h1, h2⟩, hp⟩

/-- C9 fixture: a raw item with every optional field absent. -/
def baseRawItem : RawItem :=
  { content_id := none, product := none, title := none, overview := none,
    description := none, product_title := none, content_type := none,
    hardware_platforms := none, categories := none, author_displayname := none,
    author_buid := none, author_verified := false, author_official := false,
    published_buid := none, updated_buid := none, ctime := none, ptime := none,
    first_ptime := none, utime := none, status := none, moderation_state := none,
    error_info := none, deleted := false, published := false, moderated := false,
    beta := false, maintenance := false, restricted := false,
    use_high_report_threshold := false, marketplace := false, review_revision := false,
    author_price := "null", required_dlc := none, required_mods := none,
    achievement_friendly := false, default_locale := none, supported_locales := none,
    release_notes := none, stats := none, custom_data := "null", catalog_info := none,
    preview_image := none, cover_image := none, screenshot_images := none,
    videos := none }

/-- C9 fixture: a raw item carrying entry id `"abc"` and product `"SKYRIM"`. -/
def c9_item : RawItem := { baseRawItem with content_id := some "abc", product := some "SKYRIM" }

/-- C9 fixture: a template whose only replacement field is one `str.format`
cannot resolve, so substitution raises `KeyError`. -/
def c9_bad_template : List TmplPart := [TmplPart.field "mod"]

/-- C9 counterexample — a failed template substitution does not fall back to
the canonical path scheme: with `c9_bad_template` the substitution fails and
`parse_mod` leaves the detail URL unset, whereas without a template the same
item resolves to the canonical URL. -/
theorem c9_template_fallback_counterexample :
    format_tmpl c9_bad_template "abc" "SKYRIM" = none ∧
    (parse_mod c9_item (some c9_bad_template)).details_url = none ∧
    (parse_mod c9_item none).details_url =
      some "https://creations.bethesda.net/en/skyrim/details/abc" ∧
    (parse_mod c9_item (some c9_bad_template)).details_url ≠
      (parse_mod c9_item none).details_url := by
  refine ⟨rfl, rfl, ?_, ?_⟩
  · decide
  · decide

/-- C9 amended — detail-URL resolution in `parse_mod`: for an item with a
non-empty id and product, no template resolves the canonical path scheme,
and a supplied template resolves to the substitution result — the URL on
substitution success, and `None` (not the canonical fallback) on
substitution failure; the failure is soft and `parse_mod` still returns an
entry carrying the item's id. -/
theorem c9_details_url_resolution (item : RawItem) (t : List TmplPart)
    (hid : (py_or_str item.content_id (some "")).getD "" ≠ "")
    (hprod : (py_or_str item.product (some "")).getD "" ≠ "") :
    (parse_mod item none).details_url =
      some ("https://creations.bethesda.net/en/"
        ++ lower_string ((py_or_str item.product (some "")).getD "")
        ++ "/details/" ++ (py_or_str item.content_id (some "")).getD "") ∧
    (parse_mod item (some t)).details_url =
      format_tmpl t ((py_or_str item.content_id (some "")).getD "")
        ((py_or_str item.product (some "")).getD "") ∧
    (parse_mod item (some t)).mod_id = (py_or_str item.content_id (some "")).getD "" := by
  refine ⟨?_, ?_, rfl⟩
  · show (if _ ∧ _ then _ else none) = _
    rw [if_pos ⟨hid, hprod⟩]
  · show (if _ ∧ _ then _ else none) = _
    rw [if_pos ⟨hid, hprod⟩]

/-- C9 witness — URL resolution at the concrete item `c9_item`, with a
template that substitutes both known fields. -/
theorem c9_details_url_resolution_witness :
    (parse_mod c9_item none).details_url =
      some ("https://creations.bethesda.net/en/"
        ++ lower_string ((py_or_str c9_item.product (some "")).getD "")
        ++ "/details/" ++ (py_or_str c9_item.content_id (some "")).getD "") ∧
    (parse_mod c9_item (some [TmplPart.lit "https://x/", TmplPart.field "product",
        TmplPart.lit "/", TmplPart.field "content_id"])).details_url =
      format_tmpl [TmplPart.lit "https://x/", TmplPart.field "product",
        TmplPart.lit "/", TmplPart.field "content_id"]
        ((py_or_str c9_item.content_id (some "")).getD "")
        ((py_or_str c9_item.product (some "")).getD "") ∧
    (parse_mod c9_item (some [TmplPart.lit "https://x/", TmplPart.field "product",
        TmplPart.lit "/", TmplPart.field "content_id"])).mod_id =
      (py_or_str c9_item.content_id (some "")).getD "" :=
  c9_details_url_resolution c9_item
    [TmplPart.lit "https://x/", TmplPart.field "product",
      TmplPart.lit "/", TmplPart.field "content_id"]
    (by decide) (by decide)

/-- The walker's per-item stop condition, as one predicate: a present entry
id, a truthy effective cutoff, and a first-published (else published)
instant at or before it. -/
def stop_trigger (ec : Option String) (m : Mod) : Bool :=
  decide (m.mod_id ≠ "") &&
    (py_str_truthy ec && is_before_or_equal_first_ptime m (ec.getD ""))

theorem process_item_stop (config : Config) (pn pu emit : Bool) (ec : Option String)
    (now : String) (st : ItemState) (m : Mod) :
    (process_item config pn pu emit ec now st m).stop = (st.stop || stop_trigger ec m) := by
  unfold process_item stop_trigger
  by_cases hid : m.mod_id = "" <;> simp [hid]

theorem foldl_stop (config : Config) (pn pu emit : Bool) (ec : Option String) (now : String) :
    ∀ (mods : List Mod) (st : ItemState),
      (mods.foldl (process_item config pn pu emit ec now) st).stop =
        (st.stop || mods.any (stop_trigger ec)) := by
  intro mods
  induction mods with
  | nil => intro st; simp
  | cons a as ih =>
    intro st
    rw [List.foldl_cons, ih, process_item_stop, List.any_cons, Bool.or_assoc]

theorem process_item_meta (config : Config) (pn pu emit : Bool) (ec : Option String)
    (now : String) (st : ItemState) (m : Mod) :
    (process_item config pn pu emit ec now st m).store.meta = st.store.meta := by
  unfold process_item
  by_cases hid : m.mod_id = "" <;> simp [hid, upsert_mod]

theorem foldl_meta (config : Config) (pn pu emit : Bool) (ec : Option String) (now : String) :
    ∀ (mods : List Mod) (st : ItemState),
      (mods.foldl (process_item config pn pu emit ec now) st).store.meta = st.store.meta := by
  intro mods
  induction mods with
  | nil => intro st; rfl
  | cons a as ih =>
    intro st
    rw [List.foldl_cons, ih, process_item_meta]

theorem page_step_meta (config : Config) (pn pu emit : Bool) (ec : Option String)
    (now : String) (st : LoopState) (mods : List Mod) :
    (page_step config pn pu emit ec now st mods).store.meta = st.store.meta := by
  unfold page_step page_fold
  rw [foldl_meta]

theorem sync_pages_meta (config : Config) (pn pu emit : Bool) (ec : Option String)
    (now : String) : ∀ (pages : List (List Mod)) (st : LoopState),
    (sync_pages config pn pu emit ec now pages st).store.meta = st.store.meta := by
  intro pages
  induction pages with
  | nil => intro st; rfl
  | cons pg rest ih =>
    intro st
    rw [sync_pages]
    by_cases hc : ((page_fold config pn pu emit ec now st pg).stop || pg.isEmpty : Bool)
    · rw [if_pos hc, page_step_meta]
    · rw [if_neg hc, ih, page_step_meta]

theorem process_item_mods_mono (config : Config) (pn pu emit : Bool) (ec : Option String)
    (now : String) (st : ItemState) (m : Mod) (k : String)
    (h : (assocGet st.store.mods k).isSome = true) :
    (assocGet (process_item config pn pu emit ec now st m).store.mods k).isSome = true := by
  unfold process_item
  by_cases hid : m.mod_id = ""
  · rw [if_pos hid]; exact h
  · rw [if_neg hid]
    simp only [upsert_mod, assocGet_assocSet]
    by_cases hk : m.mod_id = k <;> simp [hk, h]

theorem process_item_mods_self (config : Config) (pn pu emit : Bool) (ec : Option String)
    (now : String) (st : ItemState) (m : Mod) (hid : m.mod_id ≠ "") :
    (assocGet (process_item config pn pu emit ec now st m).store.mods m.mod_id).isSome = true := by
  unfold process_item
  rw [if_neg hid]
  simp [upsert_mod, assocGet_assocSet]

theorem foldl_mods_mono (config : Config) (pn pu emit : Bool) (ec : Option String)
    (now : String) : ∀ (mods : List Mod) (st : ItemState) (k : String),
    (assocGet st.store.mods k).isSome = true →
    (assocGet ((mods.foldl (process_item config pn pu emit ec now) st).store.mods) k).isSome
      = true := by
  intro mods
  induction mods with
  | nil => intro st k h; exact h
  | cons a as ih =>
    intro st k h
    rw [List.foldl_cons]
    exact ih _ k (process_item_mods_mono config pn pu emit ec now st a k h)

theorem foldl_mem_upserted (config : Config) (pn pu emit : Bool) (ec : Option String)
    (now : String) : ∀ (mods : List Mod) (st : ItemState) (m : Mod), m ∈ mods →
    m.mod_id ≠ "" →
    (assocGet ((mods.foldl (process_item config pn pu emit ec now) st).store.mods)
      m.mod_id).isSome = true := by
  intro mods
  induction mods with
  | nil => intro st m hm; cases hm
  | cons a as ih =>
    intro st m hm hid
    rw [List.foldl_cons]
    rcases List.mem_cons.mp hm with hma | hmas
    · subst hma
      exact foldl_mods_mono config pn pu emit ec now as _ m.mod_id
        (process_item_mods_self config pn pu emit ec now st m hid)
    · exact ih _ m hmas hid

theorem finalize_meta_dry (config : Config) (r : LoopState) :
    finalize_meta config true r = r := by
  unfold finalize_meta
  cases r.max_first_ptime <;> rfl

theorem finalize_meta_none (config : Config) (dry : Bool) (r : LoopState)
    (h : r.max_first_ptime = none) : finalize_meta config dry r = r := by
  unfold finalize_meta
  cases dry <;> simp [h]

theorem finalize_meta_mods (config : Config) (dry : Bool) (r : LoopState) :
    (finalize_meta config dry r).store.mods = r.store.mods := by
  unfold finalize_meta
  cases hm : r.max_first_ptime with
  | none => cases dry <;> rfl
  | some v =>
    cases dry with
    | false =>
      by_cases hv : v ≠ "" <;> simp [hv, set_meta]
    | true => rfl

theorem finalize_meta_actions (config : Config) (dry : Bool) (r : LoopState) :
    (finalize_meta config dry r).actions = r.actions := by
  unfold finalize_meta
  cases hm : r.max_first_ptime with
  | none => cases dry <;> rfl
  | some v =>
    cases dry with
    | false => by_cases hv : v ≠ "" <;> simp [hv]
    | true => rfl

theorem finalize_meta_max (config : Config) (dry : Bool) (r : LoopState) :
    (finalize_meta config dry r).max_first_ptime = r.max_first_ptime := by
  unfold finalize_meta
  cases hm : r.max_first_ptime with
  | none => cases dry <;> simp [hm]
  | some v =>
    cases dry with
    | false => by_cases hv : v ≠ "" <;> simp [hv, hm]
    | true => simp [hm]

theorem finalize_meta_write (config : Config) (r : LoopState) (v : String)
    (h : r.max_first_ptime = some v) (hv : v ≠ "") :
    (finalize_meta config false r).store =
      set_meta r.store (meta_key_first_ptime config.product) v := by
  unfold finalize_meta
  rw [h]
  simp [hv]

/-- Shared walker fixture: a SKYRIM run whose hard stop parses to instant
100, with no synthetic cutoff override. -/
def sync_config : Config :=
  { product := "SKYRIM", fallout4_hard_stop := "", skyrim_hard_stop := "100",
    starfield_hard_stop := "", bgs_ignore_before := "",
    synthetic_last_seen_first_ptime := none }

/-- Shared walker fixture: a ledger whose persisted high-water mark for
SKYRIM is instant 300. -/
def sync_store : Store :=
  { mods := [], posts := [], meta := [("last_seen_first_ptime:SKYRIM", "300")] }

/-- Shared walker fixture: an eligible entry first published at instant
200. -/
def c2_mod_a : Mod :=
  { baseMod with
    mod_id := "a", product := "SKYRIM", author_displayname := some "alice",
    author_verified := true, prices := [{ amount := .num 1, rest := "" }],
    first_published_at := some "200", published_at := some "200" }

/-- Shared walker fixture: an eligible entry first published at instant
150. -/
def c2_mod_b : Mod :=
  { c2_mod_a with
    mod_id := "b", first_published_at := some "150", published_at := some "150" }

/-- C2 fixture: two one-entry pages, newest first. -/
def c2_pages : List (List Mod) := [[c2_mod_a], [c2_mod_b]]

/-- C2 counterexample — dry run is not observationally a live run minus
writes: from the same starting ledger, the dry pass ignores the persisted
mark (cutoff instant 100 from the hard stop instead of 300), so it
classifies both entries where the live pass stops after the first, and the
dry pass still upserts the entries it sees into the ledger. -/
theorem c2_dry_run_counterexample :
    (sync_mods sync_config sync_store c2_pages true true true false "now").actions ≠
      (sync_mods sync_config sync_store c2_pages true true false false "now").actions ∧
    (sync_mods sync_config sync_store c2_pages true true true false "now").store.mods ≠
      sync_store.mods := by
  constructor
  · decide
  · decide

/-- C2 amended — with a synthetic cutoff override configured, dry and live
passes resolve the same cutoff and produce identical per-entry
classification output and identical entry upserts; the dry pass never writes
the metadata table.  (Without the override the two modes resolve different
cutoffs — the dry pass ignores the persisted mark — and the dry pass still
performs every entry upsert, as the counterexample shows.) -/
theorem c2_dry_run_equivalence (config : Config) (store : Store) (pages : List (List Mod))
    (pn pu emit : Bool) (now : String)
    (hsyn : py_str_truthy config.synthetic_last_seen_first_ptime = true) :
    (sync_mods config store pages pn pu true emit now).actions =
      (sync_mods config store pages pn pu false emit now).actions ∧
    (sync_mods config store pages pn pu true emit now).store.mods =
      (sync_mods config store pages pn pu false emit now).store.mods ∧
    (sync_mods config store pages pn pu true emit now).store.meta = store.meta := by
  have hc : effective_cutoff config store true = effective_cutoff config store false := by
    unfold effective_cutoff resolve_first_ptime_cutoff
    rw [if_pos hsyn, if_pos hsyn]
  unfold sync_mods
  rw [hc]
  refine ⟨?_, ?_, ?_⟩
  · rw [finalize_meta_dry, finalize_meta_actions]
  · rw [finalize_meta_dry, finalize_meta_mods]
  · rw [finalize_meta_dry, sync_pages_meta]

/-- C2 witness fixture: the shared walker policy with a synthetic cutoff
override at instant 50. -/
def c2w_config : Config :=
  { sync_config with synthetic_last_seen_first_ptime := some "50" }

/-- C2 witness — the amended dry-run equivalence at the concrete override
configuration `c2w_config` over `c2_pages`. -/
theorem c2_dry_run_equivalence_witness :
    (sync_mods c2w_config sync_store c2_pages true true true false "now").actions =
      (sync_mods c2w_config sync_store c2_pages true true false false "now").actions ∧
    (sync_mods c2w_config sync_store c2_pages true true true false "now").store.mods =
      (sync_mods c2w_config sync_store c2_pages true true false false "now").store.mods ∧
    (sync_mods c2w_config sync_store c2_pages true true true false "now").store.meta =
      sync_store.meta :=
  c2_dry_run_equivalence c2w_config sync_store c2_pages true true false "now" (by decide)

/-- C4 fixture: one page holding a single entry first published at instant
200 — older than the persisted mark 300, so it hits the cutoff at once. -/
def c4_mod : Mod := { c2_mod_a with mod_id := "c" }

/-- C4 fixture: the single-page fetch. -/
def c4_pages : List (List Mod) := [[c4_mod]]

/-- C4 counterexample — the mark is rewritten even when nothing strictly
newer was observed: the only fetched entry's first-published instant is 200,
older than the persisted mark 300, yet the non-dry pass overwrites the mark
with 200 — the persisted high-water mark decreases. -/
theorem c4_high_water_mark_counterexample :
    get_meta sync_store (meta_key_first_ptime "SKYRIM") = some "300" ∧
    (∀ m ∈ c4_mod :: [], parse_iso m.first_published_at = some 200) ∧
    get_meta (sync_mods sync_config sync_store c4_pages true true false false "now").store
      (meta_key_first_ptime "SKYRIM") = some "200" := by
  refine ⟨rfl, ?_, ?_⟩
  · decide
  · decide

/-- C4 amended — the dry-run pass leaves the metadata table untouched; a
non-dry pass leaves it untouched exactly when no fetched entry carried a
first-published value, and otherwise writes the run's maximum observed
first-published value under the per-product key — regardless of how it
compares with the previously persisted mark. -/
theorem c4_high_water_mark_write (config : Config) (store : Store) (pages : List (List Mod))
    (pn pu emit : Bool) (now : String) :
    (sync_mods config store pages pn pu true emit now).store.meta = store.meta ∧
    ((sync_mods config store pages pn pu false emit now).max_first_ptime = none →
      (sync_mods config store pages pn pu false emit now).store.meta = store.meta) ∧
    (∀ v, (sync_mods config store pages pn pu false emit now).max_first_ptime = some v →
      v ≠ "" →
      get_meta (sync_mods config store pages pn pu false emit now).store
        (meta_key_first_ptime config.product) = some v) := by
  refine ⟨?_, ?_, ?_⟩
  · unfold sync_mods
    rw [finalize_meta_dry, sync_pages_meta]
  · intro hmax
    unfold sync_mods at hmax ⊢
    rw [finalize_meta_max] at hmax
    rw [finalize_meta_none config false _ hmax, sync_pages_meta]
  · intro v hmax hv
    unfold sync_mods at hmax ⊢
    rw [finalize_meta_max] at hmax
    rw [get_meta, finalize_meta_write config _ v hmax hv]
    simp [set_meta, assocGet_assocSet]

/-- C4 witness — the amended write rule at the concrete fixture: the non-dry
pass over `c4_pages` has run maximum 200 and writes it; the dry pass leaves
the metadata unchanged. -/
theorem c4_high_water_mark_write_witness :
    get_meta (sync_mods sync_config sync_store c4_pages true true false false "now").store
      (meta_key_first_ptime "SKYRIM") = some "200" ∧
    (sync_mods sync_config sync_store c4_pages true true true false "now").store.meta =
      sync_store.meta :=
  ⟨(c4_high_water_mark_write sync_config sync_store c4_pages true true false "now").2.2
      "200" (by decide) (by decide),
    (c4_high_water_mark_write sync_config sync_store c4_pages true true false "now").1⟩

/-- C5 — the walker's stop handling: (a) when some item of a page triggers
the cutoff stop condition, the run is identical to a run whose source ends
with that page — every item of the page, including those after the trigger,
is still classified and upserted (any item with a non-empty id ends up in
the ledger), and no later page is fetched; (b) a run whose very first page
is empty terminates normally with nothing classified, one page fetched, and
the ledger untouched. -/
theorem c5_walker_stop_and_empty (config : Config) (store : Store) (page : List Mod)
    (rest : List (List Mod)) (pn pu dry emit : Bool) (now : String) :
    ((∃ m ∈ page, stop_trigger (effective_cutoff config store dry) m = true) →
      sync_mods config store (page :: rest) pn pu dry emit now =
        sync_mods config store [page] pn pu dry emit now ∧
      ∀ m ∈ page, m.mod_id ≠ "" →
        (assocGet (sync_mods config store (page :: rest) pn pu dry emit now).store.mods
          m.mod_id).isSome = true)
    ∧ sync_mods config store (([] : List Mod) :: rest) pn pu dry emit now =
        { store := store, actions := [], total_seen := 0, max_first_ptime := none,
          pages_fetched := 1 } := by
  constructor
  · intro hex
    have hstop : (page_fold config pn pu emit (effective_cutoff config store dry) now
        { store := store, actions := [], total_seen := 0, max_first_ptime := none,
          pages_fetched := 0 } page).stop = true := by
      unfold page_fold
      rw [foldl_stop]
      simp only [Bool.false_or]
      exact List.any_eq_true.mpr hex
    have hcond : ((page_fold config pn pu emit (effective_cutoff config store dry) now
        { store := store, actions := [], total_seen := 0, max_first_ptime := none,
          pages_fetched := 0 } page).stop || page.isEmpty) = true := by
      rw [hstop, Bool.true_or]
    have hloop : ∀ rest2 : List (List Mod),
        sync_pages config pn pu emit (effective_cutoff config store dry) now (page :: rest2)
          { store := store, actions := [], total_seen := 0, max_first_ptime := none,
            pages_fetched := 0 } =
        page_step config pn pu emit (effective_cutoff config store dry) now
          { store := store, actions := [], total_seen := 0, max_first_ptime := none,
            pages_fetched := 0 } page := by
      intro rest2
      rw [sync_pages, if_pos hcond]
    constructor
    · unfold sync_mods
      rw [hloop rest, hloop []]
    · intro m hm hid
      unfold sync_mods
      rw [finalize_meta_mods, hloop rest]
      unfold page_step page_fold
      exact foldl_mem_upserted config pn pu emit (effective_cutoff config store dry) now
        page _ m hm hid
  · unfold sync_mods
    have hbase : sync_pages config pn pu emit (effective_cutoff config store dry) now
        (([] : List Mod) :: rest)
        { store := store, actions := [], total_seen := 0, max_first_ptime := none,
          pages_fetched := 0 } =
        { store := store, actions := [], total_seen := 0, max_first_ptime := none,
          pages_fetched := 1 } := by
      rw [sync_pages, if_pos (by simp)]
      rfl
    rw [hbase]
    exact finalize_meta_none config dry _ rfl

/-- C5 witness — the stop rule at a concrete run: the persisted mark is 300,
the page's entry has first-published 200 and so triggers the stop, a trailing
page is never fetched, and the entry is found in the ledger afterwards. -/
theorem c5_walker_stop_and_empty_witness :
    sync_mods sync_config sync_store [[c4_mod], [baseMod]] true true false false "now" =
      sync_mods sync_config sync_store [[c4_mod]] true true false false "now" ∧
    ∀ m ∈ [c4_mod], m.mod_id ≠ "" →
      (assocGet (sync_mods sync_config sync_store [[c4_mod], [baseMod]] true true false false
        "now").store.mods m.mod_id).isSome = true :=
  (c5_walker_stop_and_empty sync_config sync_store [c4_mod] [[baseMod]] true true false
    false "now").1 ⟨c4_mod, by decide, by decide⟩

end VCBot
